import Mathlib

/-!
Verification of the MPAS simulation resource-estimation notebook
(`mpas_simulation_resource_estimation`).

The notebook consists of three pure arithmetic computations and one static
lookup table.  We embed them over `ℚ` (Python numbers are embedded as exact
rationals; Python's true division `/` raises `ZeroDivisionError` on a zero
divisor, which we model with `Option`).

A central feature of the source is that the body of
`calculate_core_hours_per_time_step_per_grid_point` reads the *module-level*
variables `grid_columns` and `vertical_levels` instead of its declared
parameters `num_grid_columns` and `num_vertical_levels`.  We therefore embed
the function with an explicit `ModuleGlobals` record carrying the ambient
module state it closes over, alongside its declared (ignored) parameters.
-/

/-- The module-level variables the notebook functions close over. -/
structure ModuleGlobals where
  grid_columns : ℚ
  vertical_levels : ℚ
deriving DecidableEq

/-- Python true division: `a / b`, raising `ZeroDivisionError` (modelled as
`none`) when the divisor is zero. -/
def pydiv (a b : ℚ) : Option ℚ :=
  if b = 0 then none else some (a / b)

/-- Embedding of `calculate_core_hours_per_time_step_per_grid_point`.

Source body:
```
total_seconds = simulation_days * 24 * 3600
total_time_steps = total_seconds / time_step_seconds
total_grid_points = grid_columns * vertical_levels
core_hours_per_time_step_per_grid_point =
    total_core_hours_used / (total_time_steps * total_grid_points)
```
Note that `total_grid_points` is computed from the module-level
`grid_columns` and `vertical_levels` (fields of `g`), not from the declared
parameters `num_grid_columns` / `num_vertical_levels`, which the body never
uses. -/
def calculate_core_hours_per_time_step_per_grid_point (g : ModuleGlobals)
    (total_core_hours_used time_step_seconds num_grid_columns
     num_vertical_levels simulation_days : ℚ) : Option ℚ :=
  let total_seconds := simulation_days * 24 * 3600
  (pydiv total_seconds time_step_seconds).bind fun total_time_steps =>
    let total_grid_points := g.grid_columns * g.vertical_levels
    pydiv total_core_hours_used (total_time_steps * total_grid_points)

/-- Embedding of `calculate_core_hours`.

Source body:
```
total_seconds = simulation_days * 24 * 3600
total_time_steps = total_seconds / time_step_seconds
total_grid_points = num_grid_columns * num_vertical_levels
total_core_hours = total_time_steps * total_grid_points * core_hours_per_time_step_per_grid_point
```
This function does use its declared parameters. -/
def calculate_core_hours
    (time_step_seconds num_grid_columns num_vertical_levels simulation_days
     core_hours_per_time_step_per_grid_point : ℚ) : Option ℚ :=
  let total_seconds := simulation_days * 24 * 3600
  (pydiv total_seconds time_step_seconds).map fun total_time_steps =>
    let total_grid_points := num_grid_columns * num_vertical_levels
    total_time_steps * total_grid_points * core_hours_per_time_step_per_grid_point

/-- Embedding of the notebook's `mesh_dict`: mesh identifier ↦
(grid spacing in km, number of horizontal grid columns). -/
def mesh_dict : List (String × ℚ × ℕ) :=
  [ ("3km", (3, 65536002)),
    ("3.75km", (3.75, 41943042)),
    ("7.5km", (7.5, 10485762)),
    ("15km", (15, 2621442)),
    ("30km", (30, 655362)),
    ("120km", (120, 40962)),
    ("15-3km-ell", (3, 8060930)),
    ("15-3km-cir", (3, 6488066)) ]

/-- Embedding of the Python subscript `mesh_dict[mesh]`: a `KeyError` on an
absent key is modelled as `none`; a present key yields the stored pair. -/
def mesh_lookup (mesh : String) : Option (ℚ × ℕ) :=
  (mesh_dict.find? fun p => p.1 == mesh).map Prod.snd

/-- Embedding of `storage_2d = (nvars_2d * grid_columns * simulation_length *
outputs_per_day_2d) * 32` (bits, single precision). -/
def storage_2d (nvars_2d grid_columns simulation_length outputs_per_day_2d : ℚ) : ℚ :=
  (nvars_2d * grid_columns * simulation_length * outputs_per_day_2d) * 32

/-- Embedding of `storage_3d = (nvars_3d * grid_columns * vertical_levels *
simulation_length * outputs_per_day_3d) * 32` (bits, single precision). -/
def storage_3d (nvars_3d grid_columns vertical_levels simulation_length
    outputs_per_day_3d : ℚ) : ℚ :=
  (nvars_3d * grid_columns * vertical_levels * simulation_length * outputs_per_day_3d) * 32

/-- The notebook's bit-to-terabyte conversion of the 2D storage term:
`storage_2d * 1.25e-13`. -/
def storage_2d_TB (nvars_2d grid_columns simulation_length outputs_per_day_2d : ℚ) : ℚ :=
  storage_2d nvars_2d grid_columns simulation_length outputs_per_day_2d * 1.25e-13

/-- The notebook's bit-to-terabyte conversion of the 3D storage term:
`storage_3d * 1.25e-13`. -/
def storage_3d_TB (nvars_3d grid_columns vertical_levels simulation_length
    outputs_per_day_3d : ℚ) : ℚ :=
  storage_3d nvars_3d grid_columns vertical_levels simulation_length outputs_per_day_3d
    * 1.25e-13

/-- The notebook's total storage: `storage_2d * 1.25e-13 + storage_3d * 1.25e-13`. -/
def total_storage_TB (nvars_2d nvars_3d outputs_per_day_2d outputs_per_day_3d
    grid_columns vertical_levels simulation_length : ℚ) : ℚ :=
  storage_2d nvars_2d grid_columns simulation_length outputs_per_day_2d * 1.25e-13
    + storage_3d nvars_3d grid_columns vertical_levels simulation_length outputs_per_day_3d
        * 1.25e-13

/-- C1: the claim states that the efficiency function computes
`totalGridPoints = nc × nv` from its own arguments `num_grid_columns` and
`num_vertical_levels`.  The code instead reads the module-level
`grid_columns` and `vertical_levels`: with module globals (41943042, 127)
and arguments nc = nv = 1 it returns 236000 / (17280 × 41943042 × 127)
= 1475/575290764072 ≈ 2.56e-9, not the claimed
236000 / (17280 × 1 × 1) ≈ 13.66. -/
theorem C1_efficiency_ignores_argument_grid_dims :
    calculate_core_hours_per_time_step_per_grid_point ⟨41943042, 127⟩ 236000 20 1 1 4
      = some (1475 / 575290764072)
    ∧ (1475 / 575290764072 : ℚ) ≠ 236000 / ((4 * 86400 / 20) * (1 * 1)) := by
  constructor
  · norm_num [calculate_core_hours_per_time_step_per_grid_point, pydiv]
  · norm_num

/-- C2: the round-trip law `totalCoreHours(dt, nc, nv, d, efficiency(H, dt,
nc, nv, d)) = H` fails on the code whenever the arguments nc, nv differ from
the module-level `grid_columns`, `vertical_levels`, because the efficiency
function reads the globals while `calculate_core_hours` uses its parameters.
At H = 236000, dt = 20, nc = nv = 1, d = 4 under globals (41943042, 127) the
round trip does not recover 236000. -/
theorem C2_roundtrip_fails_on_mismatched_globals :
    (calculate_core_hours_per_time_step_per_grid_point ⟨41943042, 127⟩ 236000 20 1 1 4).bind
        (fun c => calculate_core_hours 20 1 1 4 c) ≠ some 236000 := by
  norm_num [calculate_core_hours_per_time_step_per_grid_point, calculate_core_hours, pydiv]

/-- C3 counterexample: with a negative simulation length (d = −1) and all
other inputs positive, both operations return a numeric result (`some _`,
i.e. not a failure outcome), contradicting the claim that any non-positive
timeStepSeconds, gridColumns, verticalLevels or simulationDays fails with
InvalidParameter. -/
theorem C3_negative_inputs_return_numbers :
    calculate_core_hours_per_time_step_per_grid_point ⟨41943042, 127⟩
        236000 20 41943042 127 (-1) ≠ none
    ∧ calculate_core_hours 20 41943042 127 (-1) 1 ≠ none := by
  constructor
  · norm_num [calculate_core_hours_per_time_step_per_grid_point, pydiv]
    exact Option.some_ne_none _
  · norm_num [calculate_core_hours, pydiv]
    exact Option.some_ne_none _

/-- C3 amended: the code performs no input validation.  The only failure
outcome is Python's division by zero: `calculate_core_hours` fails exactly
when the time step is zero, and the efficiency function fails exactly when
the time step is zero, the simulation length is zero, or the module-level
grid-point product is zero; every other input — negative values included —
yields a numeric result. -/
theorem C3_failure_iff_zero_divisor (g : ModuleGlobals) (H dt nc nv d c : ℚ) :
    (calculate_core_hours_per_time_step_per_grid_point g H dt nc nv d = none
      ↔ dt = 0 ∨ d = 0 ∨ g.grid_columns * g.vertical_levels = 0)
    ∧ (calculate_core_hours dt nc nv d c = none ↔ dt = 0) := by
  constructor
  · unfold calculate_core_hours_per_time_step_per_grid_point pydiv
    rcases eq_or_ne dt 0 with h | h
    · simp [h]
    · have key : d * 24 * 3600 / dt * (g.grid_columns * g.vertical_levels) = 0
          ↔ d = 0 ∨ g.grid_columns * g.vertical_levels = 0 := by
        rw [mul_eq_zero, div_eq_zero_iff]
        constructor
        · rintro ((h4 | h4) | h4)
          · left
            have h5 : (24 * 3600 : ℚ) ≠ 0 := by norm_num
            rw [mul_assoc] at h4
            exact (mul_eq_zero.mp h4).resolve_right h5
          · exact absurd h4 h
          · exact Or.inr h4
        · rintro (h4 | h4)
          · exact Or.inl (Or.inl (by rw [h4]; ring))
          · exact Or.inr h4
      simp only [if_neg h, Option.some_bind]
      by_cases h2 : d * 24 * 3600 / dt * (g.grid_columns * g.vertical_levels) = 0
      · rw [if_pos h2, key] at *
        exact ⟨fun _ => Or.inr h2, fun _ => rfl⟩
      · rw [if_neg h2]
        rw [key] at h2
        push_neg at h2
        constructor
        · intro hc; exact absurd hc (Option.some_ne_none _)
        · rintro (h3 | h3 | h3)
          · exact absurd h3 h
          · exact absurd h3 h2.1
          · exact absurd h3 h2.2
  · unfold calculate_core_hours pydiv
    rcases eq_or_ne dt 0 with h | h
    · simp [h]
    · simp [h]

/-- C4: for all non-negative variable counts, output frequencies, grid
dimensions and simulation length, the 2D storage term equals
vars2D × gridColumns × simulationDays × outputsPerDay2D × 32 × 1.25e-13 TB,
the 3D storage term equals
vars3D × gridColumns × verticalLevels × simulationDays × outputsPerDay3D × 32 × 1.25e-13 TB,
and the total storage is their sum. -/
theorem C4_storage_formula (v2 v3 o2 o3 gc vl d : ℚ)
    (h1 : 0 ≤ v2) (h2 : 0 ≤ v3) (h3 : 0 ≤ o2) (h4 : 0 ≤ o3)
    (h5 : 0 ≤ gc) (h6 : 0 ≤ vl) (h7 : 0 ≤ d) :
    storage_2d_TB v2 gc d o2 = v2 * gc * d * o2 * 32 * 1.25e-13
    ∧ storage_3d_TB v3 gc vl d o3 = v3 * gc * vl * d * o3 * 32 * 1.25e-13
    ∧ total_storage_TB v2 v3 o2 o3 gc vl d
        = storage_2d_TB v2 gc d o2 + storage_3d_TB v3 gc vl d o3 := by
  unfold total_storage_TB storage_2d_TB storage_3d_TB storage_2d storage_3d
  exact ⟨by ring, by ring, by ring⟩

/-- Witness for C4 at the notebook's own storage scenario. -/
theorem C4_storage_formula_witness :
    storage_2d_TB 15 41943042 365 24 = 15 * 41943042 * 365 * 24 * 32 * 1.25e-13
    ∧ storage_3d_TB 9 41943042 127 365 8 = 9 * 41943042 * 127 * 365 * 8 * 32 * 1.25e-13
    ∧ total_storage_TB 15 9 24 8 41943042 127 365
        = storage_2d_TB 15 41943042 365 24 + storage_3d_TB 9 41943042 127 365 8 :=
  C4_storage_formula 15 9 24 8 41943042 127 365 (by norm_num) (by norm_num)
    (by norm_num) (by norm_num) (by norm_num) (by norm_num) (by norm_num)

/-- C5: looking up a mesh identifier absent from `mesh_dict` fails (no
fallback value is substituted), and looking up a present key returns exactly
the stored (grid spacing, grid-column count) pair unmodified. -/
theorem C5_mesh_lookup_exact (k : String) (v : ℚ × ℕ) :
    ((∀ p ∈ mesh_dict, p.1 ≠ k) → mesh_lookup k = none)
    ∧ ((k, v) ∈ mesh_dict → mesh_lookup k = some v) := by
  constructor
  · intro h
    have hfind : mesh_dict.find? (fun p => p.1 == k) = none := by
      rw [List.find?_eq_none]
      intro p hp
      simpa using h p hp
    simp [mesh_lookup, hfind]
  · intro h
    fin_cases h <;> norm_num [mesh_lookup, mesh_dict] <;> decide

/-- Witness for C5: "5km" is absent and fails; "3km" is present and returns
its stored pair. -/
theorem C5_mesh_lookup_exact_witness :
    mesh_lookup "5km" = none ∧ mesh_lookup "3km" = some (3, 65536002) :=
  ⟨(C5_mesh_lookup_exact "5km" (3, 65536002)).1 (by decide),
   (C5_mesh_lookup_exact "3km" (3, 65536002)).2 (List.Mem.head _)⟩

/-- C6: each storage term is linear in its variable count, its output
frequency, and the simulation length (scaling any one of them scales the
term by the same factor), and the term vanishes when its variable count or
output frequency is zero. -/
theorem C6_storage_linear (c v2 v3 o2 o3 gc vl d : ℚ) :
    storage_2d_TB (c * v2) gc d o2 = c * storage_2d_TB v2 gc d o2
    ∧ storage_2d_TB v2 gc d (c * o2) = c * storage_2d_TB v2 gc d o2
    ∧ storage_2d_TB v2 gc (c * d) o2 = c * storage_2d_TB v2 gc d o2
    ∧ storage_3d_TB (c * v3) gc vl d o3 = c * storage_3d_TB v3 gc vl d o3
    ∧ storage_3d_TB v3 gc vl d (c * o3) = c * storage_3d_TB v3 gc vl d o3
    ∧ storage_3d_TB v3 gc vl (c * d) o3 = c * storage_3d_TB v3 gc vl d o3
    ∧ storage_2d_TB 0 gc d o2 = 0
    ∧ storage_2d_TB v2 gc d 0 = 0
    ∧ storage_3d_TB 0 gc vl d o3 = 0
    ∧ storage_3d_TB v3 gc vl d 0 = 0 := by
  unfold storage_2d_TB storage_3d_TB storage_2d storage_3d
  exact ⟨by ring, by ring, by ring, by ring, by ring, by ring, by ring,
    by ring, by ring, by ring⟩

/-- C7: with all inputs positive (module globals included), doubling the
totalCoreHours argument of the efficiency operation doubles its output, and
doubling the coreHoursPerStepPerPoint argument of `calculate_core_hours`
doubles its output. -/
theorem C7_scale_consistent (g : ModuleGlobals) (H dt nc nv d c : ℚ)
    (hH : 0 < H) (hdt : 0 < dt) (hnc : 0 < nc) (hnv : 0 < nv) (hd : 0 < d)
    (hc : 0 < c) (hgc : 0 < g.grid_columns) (hvl : 0 < g.vertical_levels) :
    (∃ r, calculate_core_hours_per_time_step_per_grid_point g H dt nc nv d = some r
      ∧ calculate_core_hours_per_time_step_per_grid_point g (2 * H) dt nc nv d
          = some (2 * r))
    ∧ (∃ r, calculate_core_hours dt nc nv d c = some r
      ∧ calculate_core_hours dt nc nv d (2 * c) = some (2 * r)) := by
  have hsteps : 0 < d * 24 * 3600 / dt := by positivity
  have hpts : 0 < g.grid_columns * g.vertical_levels := by positivity
  have hden : d * 24 * 3600 / dt * (g.grid_columns * g.vertical_levels) ≠ 0 := by
    positivity
  constructor
  · refine ⟨H / (d * 24 * 3600 / dt * (g.grid_columns * g.vertical_levels)), ?_, ?_⟩
    · simp only [calculate_core_hours_per_time_step_per_grid_point, pydiv,
        if_neg hdt.ne', Option.some_bind, if_neg hden]
    · simp only [calculate_core_hours_per_time_step_per_grid_point, pydiv,
        if_neg hdt.ne', Option.some_bind, if_neg hden]
      rw [mul_div_assoc]
  · refine ⟨d * 24 * 3600 / dt * (nc * nv) * c, ?_, ?_⟩
    · simp only [calculate_core_hours, pydiv, if_neg hdt.ne', Option.map_some']
    · simp only [calculate_core_hours, pydiv, if_neg hdt.ne', Option.map_some']
      congr 1
      ring

/-- Witness for C7 at g = (1, 1), H = dt = nc = nv = d = c = 1. -/
theorem C7_scale_consistent_witness :
    (∃ r, calculate_core_hours_per_time_step_per_grid_point ⟨1, 1⟩ 1 1 1 1 1 = some r
      ∧ calculate_core_hours_per_time_step_per_grid_point ⟨1, 1⟩ (2 * 1) 1 1 1 1
          = some (2 * r))
    ∧ (∃ r, calculate_core_hours 1 1 1 1 1 = some r
      ∧ calculate_core_hours 1 1 1 1 (2 * 1) = some (2 * r)) :=
  C7_scale_consistent ⟨1, 1⟩ 1 1 1 1 1 1 (by norm_num) (by norm_num) (by norm_num)
    (by norm_num) (by norm_num) (by norm_num) (by norm_num) (by norm_num)

/-- C8: on the documented example — H = 236000, dt = 20, nc = 41943042,
nv = 127, d = 4, with the module globals holding the same grid dimensions as
at the notebook's call site — the efficiency operation returns exactly
1475/575290764072, which lies within 10⁻²⁴ of the claimed value
2.5639208763925117 × 10⁻⁹. -/
theorem C8_documented_example :
    calculate_core_hours_per_time_step_per_grid_point ⟨41943042, 127⟩
        236000 20 41943042 127 4 = some (1475 / 575290764072)
    ∧ (2.5639208763925117e-9 - 1e-24 : ℚ) < 1475 / 575290764072
    ∧ (1475 / 575290764072 : ℚ) < 2.5639208763925117e-9 + 1e-24 := by
  refine ⟨?_, by norm_num, by norm_num⟩
  norm_num [calculate_core_hours_per_time_step_per_grid_point, pydiv]

/-- C9: every entry of `mesh_dict` maps its key to a pair of a positive
rational grid spacing and a positive grid-column count.  (The table is a
top-level immutable definition; no operation in the development mutates it.) -/
theorem C9_mesh_table_invariant (p : String × ℚ × ℕ) (hp : p ∈ mesh_dict) :
    0 < p.2.1 ∧ 0 < p.2.2 := by
  fin_cases hp <;> exact ⟨by norm_num, by norm_num⟩

/-- Witness for C9 at the first table entry. -/
theorem C9_mesh_table_invariant_witness :
    0 < (3 : ℚ) ∧ 0 < (65536002 : ℕ) :=
  C9_mesh_table_invariant ("3km", (3, 65536002)) (List.Mem.head _)

/-- C10: the efficiency operation's result does not depend on its declared
`num_grid_columns` and `num_vertical_levels` parameters: two calls under the
same module-level `grid_columns`/`vertical_levels` that agree on the other
arguments return equal results whatever those two parameters are. -/
theorem C10_output_ignores_declared_grid_args (g : ModuleGlobals)
    (H dt nc₁ nv₁ nc₂ nv₂ d : ℚ) :
    calculate_core_hours_per_time_step_per_grid_point g H dt nc₁ nv₁ d
      = calculate_core_hours_per_time_step_per_grid_point g H dt nc₂ nv₂ d := rfl
